import Mathlib

/-!
Shallow embedding of `src/main.py` of the aml-sdkv1-feature-usage-scan
repository: an auditor that scans Azure ML workspaces for deprecated
SDK v1 feature usage (linked services, data-drift monitoring, v2 dataset
usage in labeling projects).

Network calls are modelled by explicit response values handed to each
function: a `Fetch` value stands for the outcome of one HTTP round trip
(`err` = any exception raised inside the corresponding Python `try`
block: transport failure, non-2xx status turned into an exception by
`urllib`, or a `json.loads` failure; `ok` = a 2xx response whose body
parsed as JSON). JSON objects are modelled as structures whose fields
are `Option`s: `none` means the key is absent from the parsed body, so a
Python subscript on it raises `KeyError`. Python control flow that can
raise is modelled by `PyResult`: `ret` is a normal return, `raised` an
uncaught exception propagating out of the function.
-/

namespace AmlScan

/-- Entry of the `value` array of a labeling-summaries page, as consumed
by `get_labeling_projects` (only `id` and `name` are read). -/
structure LabelProject where
  id : String
  name : String
deriving DecidableEq, Repr

/-- Parsed JSON body of one labeling-summaries page. `value = none` or
`nextLink = none` mean the respective key is absent from the body. -/
structure LabelPage where
  value : Option (List LabelProject)
  nextLink : Option String
deriving DecidableEq, Repr

/-- Parsed JSON body of a project-detail response; `none` fields model
absent keys. -/
structure DetailResp where
  datasetId : Option String
  datasetType : Option String
deriving DecidableEq, Repr

/-- The `project_details` dict built by `get_project_details`. -/
structure ProjectDetail where
  datasetId : String
  datasetType : String
deriving DecidableEq, Repr

/-- A workspace descriptor from the resource-graph `data` array. -/
structure WorkspaceRef where
  subscriptionId : String
  resourceGroup : String
  name : String
  location : String
deriving DecidableEq, Repr

/-- Parsed JSON body of the resource-graph response; `data = none`
models an absent `data` key. -/
structure GraphResp where
  data : Option (List WorkspaceRef)
deriving DecidableEq, Repr

/-- A Python exception value, as far as the claims need to tell them
apart. -/
inductive PyExc where
  | keyError (key : String)
  | typeError
  | other (msg : String)
deriving DecidableEq, Repr

/-- Outcome of running a Python function: a normal return or an uncaught
exception propagating to the caller. -/
inductive PyResult (α : Type) where
  | ret (a : α)
  | raised (e : PyExc)
deriving DecidableEq, Repr

/-- Outcome of one HTTP round trip as seen inside the `try` block:
`err` is any exception raised there (transport failure, non-2xx status,
or a JSON body that fails to parse); `ok` carries the parsed body. -/
inductive Fetch (α : Type) where
  | err
  | ok (a : α)
deriving DecidableEq, Repr

/-- Compliance finding of one checker for one workspace, read off the
emoji the reference prints: check mark = `noUsage`, cross =
`usageFound`, prohibition sign = `checkFailed`. -/
inductive Finding where
  | noUsage
  | usageFound
  | checkFailed
deriving DecidableEq, Repr

/-- Outcome of `LinkedService.list(ws)`: the call is not wrapped in a
`try`, so an exception it raises carries out of the checker. -/
inductive LinkedListResult where
  | ok (services : List String)
  | exc (e : PyExc)
deriving DecidableEq, Repr

/-- Outcome of `DataDriftDetector.list(ws)`: a result list, an
`HttpOperationError` carrying a status code, or any other exception. -/
inductive DriftListResult where
  | ok (detectors : List String)
  | httpError (status : Nat)
  | otherError
deriving DecidableEq, Repr

/-- Embeds `check_linked_services_usage` (src/main.py:47-71): lists
linked services and reports `noUsage` on an empty list, `usageFound`
otherwise; the list call is not guarded, so its exception propagates. -/
def check_linked_services_usage : LinkedListResult → PyResult Finding
  | .ok ss => .ret (if ss.length = 0 then Finding.noUsage else Finding.usageFound)
  | .exc e => .raised e

/-- Embeds `check_datadrift_usage` (src/main.py:74-115): empty detector
list = `noUsage`, nonempty = `usageFound`; an `HttpOperationError` with
status 404 = `noUsage`, any other status = `checkFailed`; every other
exception is caught and reported as `checkFailed`. The function is
total: no exception escapes it. -/
def check_datadrift_usage : DriftListResult → Finding
  | .ok ds => if ds.length = 0 then Finding.noUsage else Finding.usageFound
  | .httpError s => if s = 404 then Finding.noUsage else Finding.checkFailed
  | .otherError => Finding.checkFailed

/-- Embeds the `while "nextLink" in response` loop of
`get_labeling_projects` (src/main.py:174-189). `resp` is the response
of the page handled last, `acc` the projects accumulated so far, and
`stream` the responses the network returns to the successive `nextLink`
fetches (an exhausted stream models a transport failure). A page whose
body lacks the `value` key raises `KeyError` (the subscript at
src/main.py:188 sits outside the `try`). -/
def glpLoop : LabelPage → List LabelProject → List (Fetch LabelPage) →
    PyResult (Option (List LabelProject))
  | resp, acc, [] =>
    match resp.nextLink with
    | none => .ret (some acc)
    | some _ => .ret none
  | resp, acc, f :: rest =>
    match resp.nextLink with
    | none => .ret (some acc)
    | some _ =>
      match f with
      | .err => .ret none
      | .ok p =>
        match p.value with
        | none => .raised (.keyError "value")
        | some items => glpLoop p (acc ++ items) rest

/-- Embeds `get_labeling_projects` (src/main.py:118-191). The argument
is the stream of page responses the network produces (first element =
response to the initial summaries URL, later elements = responses to
the successive `nextLink` fetches). A fetch failure returns `none`
(the Python `None`); the subscript `response["value"]` at
src/main.py:167 sits outside the `try`, so a missing `value` key raises
`KeyError`; an empty first `value` array returns the empty list at once
(src/main.py:167-168), before the `nextLink` check. -/
def get_labeling_projects : List (Fetch LabelPage) → PyResult (Option (List LabelProject))
  | [] => .ret none
  | .err :: _ => .ret none
  | .ok p :: rest =>
    match p.value with
    | none => .raised (.keyError "value")
    | some items =>
      if items.length < 1 then .ret (some [])
      else glpLoop p items rest

/-- Embeds `get_project_details` (src/main.py:194-243): a fetch failure
returns `none`; otherwise the subscripts `response["datasetId"]` and
`response["datasetType"]` (src/main.py:238-239) sit outside the `try`,
so a missing key raises `KeyError`. -/
def get_project_details : Fetch DetailResp → PyResult (Option ProjectDetail)
  | .err => .ret none
  | .ok r =>
    match r.datasetId with
    | none => .raised (.keyError "datasetId")
    | some i =>
      match r.datasetType with
      | none => .raised (.keyError "datasetType")
      | some t => .ret (some ⟨i, t⟩)

/-- Embeds the `for project in projects` loop of `check_v2_dataset_usage`
(src/main.py:279-287). `env` gives the network's response to the detail
fetch for each project id; `trace` accumulates, in order, the ids whose
detail fetch was issued and answered (the call count of the spec's
tests). A failed detail fetch returns `None`, and the unguarded
subscript `details["datasetType"]` at src/main.py:283 then raises
`TypeError`. -/
def v2Loop (env : String → Fetch DetailResp) :
    List LabelProject → List String → PyResult (Finding × List String)
  | [], trace => .ret (Finding.noUsage, trace)
  | p :: rest, trace =>
    match get_project_details (env p.id) with
    | .raised e => .raised e
    | .ret none => .raised .typeError
    | .ret (some d) =>
      if d.datasetType ≠ "FileDataset" then .ret (Finding.usageFound, trace ++ [p.id])
      else v2Loop env rest (trace ++ [p.id])

/-- Embeds `check_v2_dataset_usage` (src/main.py:246-289): a failed
listing reports `checkFailed` and stops; otherwise each listed project's
detail is fetched in order, the first project whose `datasetType` is not
`"FileDataset"` short-circuits to `usageFound`, and exhausting the list
reports `noUsage`. The second component of the result is the trace of
detail fetches issued. -/
def check_v2_dataset_usage (listing : List (Fetch LabelPage))
    (env : String → Fetch DetailResp) : PyResult (Finding × List String) :=
  match get_labeling_projects listing with
  | .raised e => .raised e
  | .ret none => .ret (Finding.checkFailed, [])
  | .ret (some projects) => v2Loop env projects []

/-- Embeds `get_workspace_list` (src/main.py:292-331): any exception in
the request/parse `try` block returns the empty list; on success the
subscript `response["data"]` (src/main.py:331) sits outside the `try`,
so a missing `data` key raises `KeyError`, and otherwise the `data`
array is returned as is. -/
def get_workspace_list : Fetch GraphResp → PyResult (List WorkspaceRef)
  | .err => .ret []
  | .ok g =>
    match g.data with
    | none => .raised (.keyError "data")
    | some d => .ret d

/-- Environment of one workspace iteration of `main`'s loop
(src/main.py:391-410): whether the `Workspace(...)` constructor
succeeds, and the network/SDK outcomes each of the three checkers
observes. -/
structure WsEnv where
  connect : Bool
  linked : LinkedListResult
  drift : DriftListResult
  listing : List (Fetch LabelPage)
  details : String → Fetch DetailResp

/-- Observable event of a scan run: a workspace connection succeeding or
failing, or one checker running to completion with its finding. -/
inductive Ev where
  | connected (ws : String)
  | connectFailed (ws : String)
  | ranLinked (ws : String) (f : Finding)
  | ranDrift (ws : String) (f : Finding)
  | ranV2 (ws : String) (f : Finding)
deriving DecidableEq, Repr

/-- Embeds the body of `main`'s per-workspace iteration after a
successful connection (src/main.py:403-410): the three checkers run in
sequence; an exception from the linked-service checker aborts before
any finding is recorded, one from the v2 checker aborts after the first
two findings. -/
def scanWorkspace (n : String) (e : WsEnv) : List Ev × Option PyExc :=
  match check_linked_services_usage e.linked with
  | .raised ex => ([], some ex)
  | .ret fl =>
    let fd := check_datadrift_usage e.drift
    match check_v2_dataset_usage e.listing e.details with
    | .raised ex => ([Ev.ranLinked n fl, Ev.ranDrift n fd], some ex)
    | .ret fv => ([Ev.ranLinked n fl, Ev.ranDrift n fd, Ev.ranV2 n fv.fst], none)

/-- Embeds `main`'s `for workspace in workspaces` loop
(src/main.py:391-410): a failed connection is caught, logged and
skipped (`continue`); an uncaught checker exception aborts the whole
loop. The result is the event trace together with the exception that
aborted the scan, if any. -/
def scanWorkspaces : List (String × WsEnv) → List Ev × Option PyExc
  | [] => ([], none)
  | (n, e) :: rest =>
    if e.connect then
      match scanWorkspace n e with
      | (evs, some ex) => (Ev.connected n :: evs, some ex)
      | (evs, none) =>
        let r := scanWorkspaces rest
        (Ev.connected n :: evs ++ r.fst, r.snd)
    else
      let r := scanWorkspaces rest
      (Ev.connectFailed n :: r.fst, r.snd)

/-- Embeds `main`'s outer `for subscription_id in ...` loop
(src/main.py:381-410), each subscription given by its workspace list:
subscriptions are scanned in order, and an uncaught exception inside one
subscription's workspace loop aborts the remaining subscriptions too. -/
def scanSubscriptions : List (List (String × WsEnv)) → List Ev × Option PyExc
  | [] => ([], none)
  | s :: subs =>
    match scanWorkspaces s with
    | (evs, some ex) => (evs, some ex)
    | (evs, none) =>
      let r := scanSubscriptions subs
      (evs ++ r.fst, r.snd)

/-- Concatenation of the `value` arrays of a page list (an absent key
contributes nothing; the claims only apply it to pages whose `value` is
present). -/
def pageValues (ps : List LabelPage) : List LabelProject :=
  (ps.map fun p => p.value.getD []).flatten

/-- Well-formed continuation chain: starting from page `p`, each page
has a `nextLink` exactly when another page follows, and every following
page carries a `value` array. -/
def wellChained : LabelPage → List LabelPage → Bool
  | p, [] => p.nextLink.isNone
  | p, q :: qs => p.nextLink.isSome && q.value.isSome && wellChained q qs

/-- On a well-formed continuation chain whose pages all answer, the
pagination loop appends every page's `value` array to the accumulator. -/
lemma glpLoop_chain (qs : List LabelPage) :
    ∀ (p : LabelPage) (acc : List LabelProject), wellChained p qs = true →
      glpLoop p acc (qs.map Fetch.ok) = PyResult.ret (some (acc ++ pageValues qs)) := by
  induction qs with
  | nil =>
    intro p acc hp
    have hn : p.nextLink = none := by
      simpa [wellChained, Option.isNone_iff_eq_none] using hp
    simp [glpLoop, hn, pageValues]
  | cons q qs ih =>
    intro p acc hp
    simp only [wellChained, Bool.and_eq_true] at hp
    obtain ⟨⟨hp1, hq1⟩, hq2⟩ := hp
    obtain ⟨u, hu⟩ := Option.isSome_iff_exists.mp hp1
    obtain ⟨vq, hvq⟩ := Option.isSome_iff_exists.mp hq1
    simp only [List.map, glpLoop, hu, hvq]
    rw [ih q (acc ++ vq) hq2]
    simp [pageValues, hvq]

/-- If some page in the chain answers with a fetch failure, the
pagination loop forgets everything accumulated and returns `none`. -/
lemma glpLoop_err (qs : List LabelPage) :
    ∀ (p : LabelPage) (acc : List LabelProject) (rest : List (Fetch LabelPage)),
      p.nextLink.isSome = true →
      (∀ q ∈ qs, q.value.isSome = true ∧ q.nextLink.isSome = true) →
      glpLoop p acc (qs.map Fetch.ok ++ Fetch.err :: rest) = PyResult.ret none := by
  induction qs with
  | nil =>
    intro p acc rest hp _
    obtain ⟨u, hu⟩ := Option.isSome_iff_exists.mp hp
    simp [glpLoop, hu]
  | cons q qs ih =>
    intro p acc rest hp hq
    obtain ⟨u, hu⟩ := Option.isSome_iff_exists.mp hp
    obtain ⟨hv, hn⟩ := hq q (by simp)
    obtain ⟨vq, hvq⟩ := Option.isSome_iff_exists.mp hv
    simp only [List.map, List.cons_append, glpLoop, hu, hvq]
    exact ih q (acc ++ vq) rest hn (fun r hr => hq r (by simp [hr]))

/-- If every detail fetch up to position `k` answers with detail `d i`,
the details before `k` say `FileDataset` and the one at `k` does not,
the project loop stops at `k` with `usageFound` and a trace holding
exactly the first `k+1` project ids. -/
lemma v2Loop_offender (env : String → Fetch DetailResp) (projects : List LabelProject)
    (d : Nat → ProjectDetail) (k : Nat) (acc : List String)
    (hk : k < projects.length)
    (hdet : ∀ i, ∀ h : i < projects.length, i ≤ k →
      get_project_details (env (projects.get ⟨i, h⟩).id) = PyResult.ret (some (d i)))
    (hpre : ∀ i, i < k → (d i).datasetType = "FileDataset")
    (hoff : (d k).datasetType ≠ "FileDataset") :
    v2Loop env projects acc
      = PyResult.ret (Finding.usageFound, acc ++ (projects.take (k+1)).map (fun p => p.id)) := by
  induction projects generalizing d k acc with
  | nil => simp at hk
  | cons p ps ih =>
    cases k with
    | zero =>
      have h0 := hdet 0 (by simp) (le_refl 0)
      simp only [List.get] at h0
      simp [v2Loop, h0, hoff]
    | succ k' =>
      have h0 := hdet 0 (by simp) (Nat.zero_le _)
      simp only [List.get] at h0
      have hfile : (d 0).datasetType = "FileDataset" := hpre 0 (Nat.succ_pos _)
      have ihx := ih (fun i => d (i + 1)) k' (acc ++ [p.id])
        (Nat.lt_of_succ_lt_succ (by simpa using hk))
        (fun i h hik => by
          have := hdet (i + 1) (by simpa using Nat.succ_lt_succ h) (Nat.succ_le_succ hik)
          simpa [List.get] using this)
        (fun i hi => hpre (i + 1) (Nat.succ_lt_succ hi))
        hoff
      simp only [v2Loop, h0]
      rw [if_neg (by simp [hfile])]
      rw [ihx]
      simp

/-- C1: the claim says a failed detail fetch makes `check_v2_dataset_usage`
report `checkFailed` and stop without crashing. The code has no guard:
`get_project_details` returns `None` and the subscript
`details["datasetType"]` at src/main.py:283 raises `TypeError`, so at the
failing input (one listed project whose detail fetch fails) the checker
raises instead of reporting `checkFailed`. This evaluates the embedded
checker at that input. -/
theorem C1_unguarded_detail_crash :
    check_v2_dataset_usage [Fetch.ok ⟨some [⟨"p1", "P1"⟩], none⟩] (fun _ => Fetch.err)
      = PyResult.raised PyExc.typeError := rfl

/-- C2 counterexample: with a first page whose `value` array is empty
but which carries a `nextLink`, and a second page holding project `c`,
the claim demands the concatenation `[c]`; the code returns the empty
list at src/main.py:167-168 without ever following the `nextLink`. -/
theorem C2_empty_first_page_counterexample :
    get_labeling_projects
        [Fetch.ok ⟨some [], some "u2"⟩, Fetch.ok ⟨some [⟨"c", "C"⟩], none⟩]
      = PyResult.ret (some [])
    ∧ get_labeling_projects
        [Fetch.ok ⟨some [], some "u2"⟩, Fetch.ok ⟨some [⟨"c", "C"⟩], none⟩]
      ≠ PyResult.ret (some [⟨"c", "C"⟩]) :=
  ⟨rfl, by decide⟩

/-- C2 amended: for every well-chained page sequence (each page except
the last carries a `nextLink`, every page carries a `value` array, every
fetch succeeds), `get_labeling_projects` returns the concatenation of
all `value` arrays with page order and within-page order preserved,
EXCEPT when the first page's `value` array is empty: then it returns the
empty list at once, without following the first page's `nextLink`. -/
theorem C2_pagination_amended (p : LabelPage) (ps : List LabelPage)
    (v : List LabelProject)
    (hv : p.value = some v) (hchain : wellChained p ps = true) :
    get_labeling_projects (Fetch.ok p :: ps.map Fetch.ok)
      = PyResult.ret (some (if v = [] then [] else v ++ pageValues ps)) := by
  cases v with
  | nil => simp [get_labeling_projects, hv]
  | cons a as =>
    have hlen : ¬ ((a :: as).length < 1) := by simp
    simp only [get_labeling_projects, hv]
    rw [if_neg hlen, glpLoop_chain ps p (a :: as) hchain]
    simp

/-- C2 witness: the spec's two-page example, pages (value=[a,b],
nextLink) then (value=[c]), yields [a,b,c] in order. -/
theorem C2_pagination_amended_witness :
    get_labeling_projects
        [Fetch.ok ⟨some [⟨"a", "A"⟩, ⟨"b", "B"⟩], some "u2"⟩,
         Fetch.ok ⟨some [⟨"c", "C"⟩], none⟩]
      = PyResult.ret (some [⟨"a", "A"⟩, ⟨"b", "B"⟩, ⟨"c", "C"⟩]) := by
  have h := C2_pagination_amended ⟨some [⟨"a", "A"⟩, ⟨"b", "B"⟩], some "u2"⟩
    [⟨some [⟨"c", "C"⟩], none⟩] [⟨"a", "A"⟩, ⟨"b", "B"⟩] rfl (by decide)
  simpa [pageValues] using h

/-- C4: the data-drift checker maps an empty detector list to `noUsage`,
a nonempty one to `usageFound`, an `HttpOperationError` with status 404
to `noUsage`, one with any other status to `checkFailed`, and any other
exception to `checkFailed`; it is a total function of the list outcome,
so no exception propagates out of it. -/
theorem C4_datadrift_findings (ds : List String) (s : Nat)
    (hds : ds ≠ []) (hs : s ≠ 404) :
    check_datadrift_usage (DriftListResult.ok []) = Finding.noUsage
    ∧ check_datadrift_usage (DriftListResult.ok ds) = Finding.usageFound
    ∧ check_datadrift_usage (DriftListResult.httpError 404) = Finding.noUsage
    ∧ check_datadrift_usage (DriftListResult.httpError s) = Finding.checkFailed
    ∧ check_datadrift_usage DriftListResult.otherError = Finding.checkFailed := by
  refine ⟨rfl, ?_, rfl, ?_, rfl⟩
  · simp [check_datadrift_usage, List.length_eq_zero, hds]
  · simp [check_datadrift_usage, hs]

/-- C4 witness: one detector yields `usageFound`; HTTP 500 yields
`checkFailed`. -/
theorem C4_datadrift_findings_witness :
    check_datadrift_usage (DriftListResult.ok ["d1"]) = Finding.usageFound
    ∧ check_datadrift_usage (DriftListResult.httpError 500) = Finding.checkFailed :=
  ⟨(C4_datadrift_findings ["d1"] 500 (by decide) (by decide)).2.1,
   (C4_datadrift_findings ["d1"] 500 (by decide) (by decide)).2.2.2.1⟩

/-- C7: when the project listing fails (`None`), `check_v2_dataset_usage`
reports `checkFailed` with an empty detail-fetch trace (no project
iteration, no detail fetch); when the listing succeeds with zero
projects it reports `noUsage`, again with an empty trace. -/
theorem C7_v2_listing_outcomes (listing : List (Fetch LabelPage))
    (env : String → Fetch DetailResp) :
    (get_labeling_projects listing = PyResult.ret none →
      check_v2_dataset_usage listing env = PyResult.ret (Finding.checkFailed, []))
    ∧ (get_labeling_projects listing = PyResult.ret (some []) →
      check_v2_dataset_usage listing env = PyResult.ret (Finding.noUsage, [])) := by
  constructor <;> intro h <;> simp [check_v2_dataset_usage, h, v2Loop]

/-- C7 witness: a failed first fetch gives `checkFailed`; an empty
`value` array gives `noUsage`, both with no detail fetch issued. -/
theorem C7_v2_listing_outcomes_witness :
    check_v2_dataset_usage [Fetch.err] (fun _ => Fetch.err)
      = PyResult.ret (Finding.checkFailed, [])
    ∧ check_v2_dataset_usage [Fetch.ok ⟨some [], none⟩] (fun _ => Fetch.err)
      = PyResult.ret (Finding.noUsage, []) :=
  ⟨(C7_v2_listing_outcomes [Fetch.err] (fun _ => Fetch.err)).1 rfl,
   (C7_v2_listing_outcomes [Fetch.ok ⟨some [], none⟩] (fun _ => Fetch.err)).2 rfl⟩

/-- C9: any failure of the enumeration request (transport error, non-2xx
status, unparseable body — all raised inside the `try`) makes
`get_workspace_list` return the empty list, and a successful response
carrying a `data` array is returned exactly as that array. -/
theorem C9_workspace_list (g : GraphResp) (d : List WorkspaceRef)
    (h : g.data = some d) :
    get_workspace_list Fetch.err = PyResult.ret []
    ∧ get_workspace_list (Fetch.ok g) = PyResult.ret d := by
  refine ⟨rfl, ?_⟩
  simp [get_workspace_list, h]

/-- C9 witness: evaluation at a failed fetch and at a one-workspace
`data` array. -/
theorem C9_workspace_list_witness :
    get_workspace_list Fetch.err = PyResult.ret []
    ∧ get_workspace_list (Fetch.ok ⟨some [⟨"s1", "rg1", "ws1", "eastus"⟩]⟩)
      = PyResult.ret [⟨"s1", "rg1", "ws1", "eastus"⟩] :=
  C9_workspace_list ⟨some [⟨"s1", "rg1", "ws1", "eastus"⟩]⟩
    [⟨"s1", "rg1", "ws1", "eastus"⟩] rfl

/-- C10: a 2xx response whose JSON body parses but lacks an expected key
raises an uncaught `KeyError` instead of returning the error sentinel,
because the subscripts sit outside the `try` blocks: `response["value"]`
in `get_labeling_projects`, `response["datasetId"]` and
`response["datasetType"]` in `get_project_details`; both exceptions
propagate out of `check_v2_dataset_usage`. -/
theorem C10_missing_keys_raise (p : LabelPage) (rest : List (Fetch LabelPage))
    (r r2 : DetailResp) (i : String) (pr : LabelProject)
    (env : String → Fetch DetailResp)
    (hp : p.value = none)
    (hr : r.datasetId = none)
    (hr2a : r2.datasetId = some i) (hr2b : r2.datasetType = none)
    (henv : env pr.id = Fetch.ok r) :
    get_labeling_projects (Fetch.ok p :: rest)
      = PyResult.raised (PyExc.keyError "value")
    ∧ get_project_details (Fetch.ok r)
      = PyResult.raised (PyExc.keyError "datasetId")
    ∧ get_project_details (Fetch.ok r2)
      = PyResult.raised (PyExc.keyError "datasetType")
    ∧ check_v2_dataset_usage (Fetch.ok p :: rest) env
      = PyResult.raised (PyExc.keyError "value")
    ∧ check_v2_dataset_usage [Fetch.ok ⟨some [pr], none⟩] env
      = PyResult.raised (PyExc.keyError "datasetId") := by
  have h1 : get_labeling_projects (Fetch.ok p :: rest)
      = PyResult.raised (PyExc.keyError "value") := by
    simp [get_labeling_projects, hp]
  have h2 : get_project_details (Fetch.ok r)
      = PyResult.raised (PyExc.keyError "datasetId") := by
    simp [get_project_details, hr]
  have h3 : get_project_details (Fetch.ok r2)
      = PyResult.raised (PyExc.keyError "datasetType") := by
    simp [get_project_details, hr2a, hr2b]
  refine ⟨h1, h2, h3, ?_, ?_⟩
  · simp [check_v2_dataset_usage, h1]
  · have hlist : get_labeling_projects [Fetch.ok ⟨some [pr], none⟩]
        = PyResult.ret (some [pr]) := by
      simp [get_labeling_projects, glpLoop]
    simp [check_v2_dataset_usage, hlist, v2Loop, henv, h2]

/-- C10 witness: evaluation at concrete bodies each missing one key. -/
theorem C10_missing_keys_raise_witness :
    get_labeling_projects [Fetch.ok ⟨none, none⟩]
      = PyResult.raised (PyExc.keyError "value")
    ∧ get_project_details (Fetch.ok ⟨none, none⟩)
      = PyResult.raised (PyExc.keyError "datasetId")
    ∧ get_project_details (Fetch.ok ⟨some "i1", none⟩)
      = PyResult.raised (PyExc.keyError "datasetType")
    ∧ check_v2_dataset_usage [Fetch.ok ⟨none, none⟩] (fun _ => Fetch.ok ⟨none, none⟩)
      = PyResult.raised (PyExc.keyError "value")
    ∧ check_v2_dataset_usage [Fetch.ok ⟨some [⟨"p1", "P1"⟩], none⟩]
        (fun _ => Fetch.ok ⟨none, none⟩)
      = PyResult.raised (PyExc.keyError "datasetId") :=
  C10_missing_keys_raise ⟨none, none⟩ [] ⟨none, none⟩ ⟨some "i1", none⟩ "i1"
    ⟨"p1", "P1"⟩ (fun _ => Fetch.ok ⟨none, none⟩) rfl rfl rfl rfl rfl

/-- A workspace where every stage succeeds and nothing is found: the
connection works, no linked services, no drift detectors, and a labeling
listing whose `value` array is empty. -/
def goodWs : WsEnv :=
  ⟨true, LinkedListResult.ok [], DriftListResult.ok [],
   [Fetch.ok ⟨some [], none⟩], fun _ => Fetch.err⟩

/-- A workspace whose connection attempt fails; the remaining fields are
never reached. -/
def noConnectWs : WsEnv :=
  ⟨false, LinkedListResult.ok [], DriftListResult.ok [],
   [Fetch.ok ⟨some [], none⟩], fun _ => Fetch.err⟩

/-- A workspace whose `LinkedService.list` call raises. -/
def linkedBoomWs : WsEnv :=
  ⟨true, LinkedListResult.exc (PyExc.other "boom"), DriftListResult.ok [],
   [Fetch.ok ⟨some [], none⟩], fun _ => Fetch.err⟩

/-- A workspace whose drift listing fails with HTTP 500 while every
other stage is healthy (no linked services, an empty labeling
listing). -/
def driftFailWs : WsEnv :=
  ⟨true, LinkedListResult.ok [], DriftListResult.httpError 500,
   [Fetch.ok ⟨some [], none⟩], fun _ => Fetch.err⟩

/-- C3 counterexample: the claim says any failure inside any of the three
checkers is confined to that checker. `check_linked_services_usage` is
not guarded (src/main.py:405 has no try), so when `LinkedService.list`
raises in workspace w1, the scan's whole trace is just the w1
connection: w1's data-drift and v2-dataset checkers never run, and the
healthy workspace w2 is never scanned. -/
theorem C3_linked_failure_counterexample :
    scanWorkspaces [("w1", linkedBoomWs), ("w2", goodWs)]
      = ([Ev.connected "w1"], some (PyExc.other "boom")) := rfl

/-- C3 amended: failure confinement holds for the data-drift checker
(whatever its listing outcome, including any HTTP error or other
exception) and for every failure the v2-dataset checker itself converts
to a finding (a failed listing fetch surfacing as `checkFailed`) —
provided the linked-service list call succeeds and the v2 checker
completes without raising: then all three findings for the workspace
are recorded and the scan of the remaining workspaces and subscriptions
proceeds exactly as if the failure had not happened. An exception in
the linked-service checker, or an unguarded `KeyError` or `TypeError`
in the v2 checker, is NOT confined and aborts the scan. -/
theorem C3_confinement_amended (n : String) (e : WsEnv)
    (rest : List (String × WsEnv)) (subs : List (List (String × WsEnv)))
    (ls : List String) (fv : Finding × List String)
    (hc : e.connect = true) (hl : e.linked = LinkedListResult.ok ls)
    (hv2 : check_v2_dataset_usage e.listing e.details = PyResult.ret fv) :
    scanSubscriptions (((n, e) :: rest) :: subs)
      = (Ev.connected n
          :: Ev.ranLinked n (if ls.length = 0 then Finding.noUsage else Finding.usageFound)
          :: Ev.ranDrift n (check_datadrift_usage e.drift)
          :: Ev.ranV2 n fv.fst
          :: (scanSubscriptions (rest :: subs)).fst,
         (scanSubscriptions (rest :: subs)).snd) := by
  have hw : scanWorkspace n e
      = ([Ev.ranLinked n (if ls.length = 0 then Finding.noUsage else Finding.usageFound),
          Ev.ranDrift n (check_datadrift_usage e.drift),
          Ev.ranV2 n fv.fst], none) := by
    simp [scanWorkspace, check_linked_services_usage, hl, hv2]
  have hww : scanWorkspaces ((n, e) :: rest)
      = (Ev.connected n
          :: Ev.ranLinked n (if ls.length = 0 then Finding.noUsage else Finding.usageFound)
          :: Ev.ranDrift n (check_datadrift_usage e.drift)
          :: Ev.ranV2 n fv.fst
          :: (scanWorkspaces rest).fst,
         (scanWorkspaces rest).snd) := by
    simp [scanWorkspaces, hc, hw]
  cases h1 : scanWorkspaces rest with
  | mk evs st =>
    rw [h1] at hww
    cases st with
    | none =>
      cases h2 : scanSubscriptions subs with
      | mk evs2 st2 =>
        simp [scanSubscriptions, hww, h1, h2]
    | some ex =>
      simp [scanSubscriptions, hww, h1]

/-- C3 witness: a workspace whose drift listing fails with HTTP 500
while its v2-dataset checker is healthy is fully recorded (`noUsage`,
`checkFailed`, `noUsage`): the drift failure stays confined to the
drift checker, and the sibling workspace and the next subscription are
still scanned. -/
theorem C3_confinement_amended_witness :
    scanSubscriptions [[("w1", driftFailWs), ("w2", goodWs)], [("w3", goodWs)]]
      = ([Ev.connected "w1", Ev.ranLinked "w1" Finding.noUsage,
          Ev.ranDrift "w1" Finding.checkFailed, Ev.ranV2 "w1" Finding.noUsage,
          Ev.connected "w2", Ev.ranLinked "w2" Finding.noUsage,
          Ev.ranDrift "w2" Finding.noUsage, Ev.ranV2 "w2" Finding.noUsage,
          Ev.connected "w3", Ev.ranLinked "w3" Finding.noUsage,
          Ev.ranDrift "w3" Finding.noUsage, Ev.ranV2 "w3" Finding.noUsage],
         none) :=
  (C3_confinement_amended "w1" driftFailWs [("w2", goodWs)] [[("w3", goodWs)]]
    [] (Finding.noUsage, []) rfl rfl rfl).trans rfl

/-- C5: on a non-empty project list delivered by a successful one-page
listing, if every detail fetch up to the first offender succeeds, the
details before position `k` say `FileDataset` and the one at `k` does
not, the checker returns `usageFound` with a detail-fetch trace of
exactly the first `k+1` project ids, in listing order — so the number of
detail fetches equals the position of the first offender and no later
project's detail is fetched. -/
theorem C5_first_offender_short_circuit (projects : List LabelProject)
    (env : String → Fetch DetailResp) (d : Nat → ProjectDetail) (k : Nat)
    (hk : k < projects.length)
    (hdet : ∀ i, ∀ h : i < projects.length, i ≤ k →
      get_project_details (env (projects.get ⟨i, h⟩).id) = PyResult.ret (some (d i)))
    (hpre : ∀ i, i < k → (d i).datasetType = "FileDataset")
    (hoff : (d k).datasetType ≠ "FileDataset") :
    check_v2_dataset_usage [Fetch.ok ⟨some projects, none⟩] env
      = PyResult.ret (Finding.usageFound, (projects.take (k + 1)).map (fun p => p.id))
    ∧ ((projects.take (k + 1)).map (fun p => p.id)).length = k + 1 := by
  constructor
  · have hne : ¬ (projects.length < 1) := by omega
    have hlist : get_labeling_projects [Fetch.ok ⟨some projects, none⟩]
        = PyResult.ret (some projects) := by
      simp only [get_labeling_projects]
      rw [if_neg hne]
      simp [glpLoop]
    rw [check_v2_dataset_usage, hlist]
    have := v2Loop_offender env projects d k [] hk hdet hpre hoff
    simpa using this
  · simp [List.length_take]
    omega

/-- Projects of the spec's short-circuit test: P1 uses a FileDataset,
P2 a v2 asset, P3 a FileDataset. -/
def c5projects : List LabelProject := [⟨"p1", "P1"⟩, ⟨"p2", "P2"⟩, ⟨"p3", "P3"⟩]

/-- Detail responses of the spec's short-circuit test. -/
def c5env : String → Fetch DetailResp := fun s =>
  if s = "p2" then Fetch.ok ⟨some "d2", some "TabularDataset"⟩
  else Fetch.ok ⟨some "d1", some "FileDataset"⟩

/-- Details indexed by listing position for the spec's short-circuit
test. -/
def c5d : Nat → ProjectDetail := fun i =>
  if i = 1 then ⟨"d2", "TabularDataset"⟩ else ⟨"d1", "FileDataset"⟩

/-- C5 witness: the spec's test [P1(FileDataset), P2(v2), P3(FileDataset)]
returns `usageFound` after fetching exactly P1's and P2's details. -/
theorem C5_first_offender_short_circuit_witness :
    check_v2_dataset_usage [Fetch.ok ⟨some c5projects, none⟩] c5env
      = PyResult.ret (Finding.usageFound, ["p1", "p2"]) := by
  have h := C5_first_offender_short_circuit c5projects c5env c5d 1
    (by simp [c5projects])
    (by intro i h hik
        rcases i with _ | _ | i
        · rfl
        · rfl
        · exact absurd hik (by omega))
    (by intro i hi
        rcases i with _ | i
        · rfl
        · exact absurd hi (by omega))
    (by decide)
  simpa [c5projects] using h.1

/-- C6: if the fetch of any page fails (transport failure, non-2xx
status, or an unparseable JSON body — all raised inside the `try`),
`get_labeling_projects` returns `None`, discarding every project
accumulated from the earlier, well-formed pages: no partial result is
returned. The earlier pages all carry a `value` array and a `nextLink`
(so the failing fetch is reached), and when there is an earlier page at
all its first `value` array is non-empty (otherwise the code returns
the empty list before any further fetch). -/
theorem C6_page_failure_discards_all (ps : List LabelPage)
    (rest : List (Fetch LabelPage))
    (hok : ∀ p ∈ ps, p.value.isSome = true ∧ p.nextLink.isSome = true)
    (hfirst : ∀ p l, ps = p :: l → p.value ≠ some []) :
    get_labeling_projects (ps.map Fetch.ok ++ Fetch.err :: rest)
      = PyResult.ret none := by
  cases ps with
  | nil => rfl
  | cons p l =>
    obtain ⟨hv, hn⟩ := hok p (by simp)
    obtain ⟨v, hvv⟩ := Option.isSome_iff_exists.mp hv
    have hne : v ≠ [] := by
      intro hemp
      exact hfirst p l rfl (by rw [hvv, hemp])
    have hlen : ¬ (v.length < 1) := by
      cases v with
      | nil => exact absurd rfl hne
      | cons a as => simp
    simp only [List.map, List.cons_append, get_labeling_projects, hvv]
    rw [if_neg hlen]
    exact glpLoop_err l p v rest hn (fun q hq => hok q (by simp [hq]))

/-- C6 witness: one good page holding project a, then a failed fetch —
the accumulated [a] is discarded and `None` is returned. -/
theorem C6_page_failure_discards_all_witness :
    get_labeling_projects [Fetch.ok ⟨some [⟨"a", "A"⟩], some "u"⟩, Fetch.err]
      = PyResult.ret none := by
  have h := C6_page_failure_discards_all [⟨some [⟨"a", "A"⟩], some "u"⟩] []
    (by intro p hp; simp at hp; rw [hp]; exact ⟨rfl, rfl⟩)
    (by intro p l hpl
        simp at hpl
        rw [← hpl.1]
        decide)
  simpa using h

/-- C8: a workspace whose connection attempt raises is caught, logged
and skipped (`continue` at src/main.py:401): it contributes only its
connection-failure event — none of its three checkers run and no finding
is recorded for it — and the rest of the scan is exactly the scan of the
remaining workspace list; when that remainder completes without raising,
so does the whole scan. -/
theorem C8_connect_failure_skips (n : String) (e : WsEnv)
    (post : List (String × WsEnv))
    (hc : e.connect = false) (hpost : (scanWorkspaces post).snd = none) :
    scanWorkspaces ((n, e) :: post)
      = (Ev.connectFailed n :: (scanWorkspaces post).fst, none) := by
  simp [scanWorkspaces, hc, hpost]

/-- C8 witness: w1 fails to connect, the healthy w2 is still fully
checked, and the scan completes without raising. -/
theorem C8_connect_failure_skips_witness :
    scanWorkspaces [("w1", noConnectWs), ("w2", goodWs)]
      = ([Ev.connectFailed "w1", Ev.connected "w2",
          Ev.ranLinked "w2" Finding.noUsage, Ev.ranDrift "w2" Finding.noUsage,
          Ev.ranV2 "w2" Finding.noUsage], none) :=
  (C8_connect_failure_skips "w1" noConnectWs [("w2", goodWs)] rfl rfl).trans rfl

end AmlScan
